import Mathlib

/-!
Shallow embedding of the search/formatting core of the ADP-MANEGER-6 dashboard:
the result formatter and category-statistics formatter (`api_utils.py`,
class `DataFormatter`), the bounded-retry HTTP wrapper (`api_utils.py`,
`APIManager.make_request`), the local query builder (`database.py`,
`DatabaseManager.search_accounts`) and the search orchestrator with database
fallback (`routes/api.py`, `api_search` / `fallback_database_search`).

Python dictionaries of scalar values are modelled as association lists of
`PyValue`; the outcomes of outbound I/O (the remote HTTP call and the SQL
layer) are passed in as explicit parameters, so every definition is a pure,
executable function of its inputs.
-/

namespace ADPManager

/-- A Python scalar value as it occurs in a result row dictionary. -/
inductive PyValue where
  | vStr (s : String)
  | vInt (n : Int)
  | vNone
  deriving DecidableEq

/-- Python truthiness of a `PyValue` (empty string, zero and `None` are falsy). -/
def PyValue.truthy : PyValue → Bool
  | .vStr s => s != ""
  | .vInt n => n != 0
  | .vNone => false

/-- Python `str()` of a `PyValue`. -/
def PyValue.pyStr : PyValue → String
  | .vStr s => s
  | .vInt n => toString n
  | .vNone => "None"

/-- Python `a or b` on values: `a` if truthy, else `b`. -/
def pyOr (a b : PyValue) : PyValue := if a.truthy then a else b

/-- A raw result row: a Python dict mapping column name to value. -/
abbrev RawRecord := List (String × PyValue)

/-- Python `d[k]` lookup returning `none` when the key is absent. -/
def RawRecord.get? (r : RawRecord) (k : String) : Option PyValue :=
  (List.find? (fun p => p.1 == k) r).map (·.2)

/-- Python `d.get(k, default)`. -/
def RawRecord.getD (r : RawRecord) (k : String) (d : PyValue) : PyValue :=
  (RawRecord.get? r k).getD d

/-- The identifier-candidate column list from `DataFormatter.format_search_results`. -/
def username_columns : List String :=
  ["username", "user", "email", "login", "user_name", "account"]

/-- The secret-candidate column list from `DataFormatter.format_search_results`. -/
def password_columns : List String :=
  ["password", "pass", "pwd", "passwd", "secret"]

/-- The test `col in result and result[col]` of the candidate scan: the value at
`col` when it is present and truthy, else `none`. -/
def colTruthy (r : RawRecord) (col : String) : Option PyValue :=
  match RawRecord.get? r col with
  | some v => if v.truthy then some v else none
  | none => none

/-- The candidate scan loop: first column of `cols` present in `r` with a truthy
value (the loop breaks at the first hit). -/
def findCandidate (cols : List String) (r : RawRecord) : Option PyValue :=
  cols.findSome? (colTruthy r)

/-- The fixed output shape produced by `DataFormatter.format_search_results` for
one record. -/
structure FormattedResult where
  id : Int
  domain : PyValue
  username : PyValue
  password : PyValue
  region : PyValue
  source : PyValue
  category : PyValue
  spid : Option String
  date : Option String
  deriving DecidableEq

/-- The body of the `for result in results` loop of `format_search_results`.
Returns `none` when Python would raise: taking the id value modulo 3 is a
`TypeError` unless the id value is an integer. -/
def formatOne (result : RawRecord) : Option FormattedResult :=
  match RawRecord.getD result "id" (.vInt 0) with
  | .vInt n =>
    let username_value := findCandidate username_columns result
    let password_value := findCandidate password_columns result
    let date_value :=
      pyOr (RawRecord.getD result "fetch_date" .vNone)
        (pyOr (RawRecord.getD result "created_at" .vNone)
          (RawRecord.getD result "date_added" .vNone))
    some
      { id := n
        domain := RawRecord.getD result "domain" (.vStr "")
        username := username_value.getD (.vStr "N/A")
        password := password_value.getD (.vStr "N/A")
        region := RawRecord.getD result "region" (.vStr "Unknown")
        source := RawRecord.getD result "source" (.vStr "TXT")
        category := RawRecord.getD result "category" (.vStr "uncategorized")
        spid := if n % 3 = 0 then some ("SP" ++ toString (1000 + n)) else none
        date := if date_value.truthy then some date_value.pyStr else none }
  | .vStr _ => none
  | .vNone => none

/-- Embedding of `DataFormatter.format_search_results`: formats each record in order; an
exception at any record aborts the whole call (`none`). The
`available_columns` argument is unused, as in the source. -/
def format_search_results : List RawRecord → List String → Option (List FormattedResult)
  | [], _ => some []
  | r :: rest, available_columns => do
    let fr ← formatOne r
    let tail ← format_search_results rest available_columns
    pure (fr :: tail)

/-! Category statistics (`DataFormatter.format_categories_stats` plus the
tables of `config.CategoryConfig`). -/

namespace CategoryConfig

/-- Table `CategoryConfig.TRANSLATIONS` from `config.py`. -/
def TRANSLATIONS : List (String × String) :=
  [("government", "Kamu Kurumları"),
   ("banks", "Finansal Kuruluşlar"),
   ("popular_turkish", "Öne Çıkan Türk Siteler"),
   ("turkish_extensions", "Türkiye Uzantılı Platformlar"),
   ("universities", "Yükseköğretim Kurumları"),
   ("social_media", "Sosyal Medya"),
   ("email_providers", "E-posta Sağlayıcıları"),
   ("tech_companies", "Teknoloji Şirketleri")]

/-- Table `CategoryConfig.COLORS` from `config.py`. -/
def COLORS : List (String × String) :=
  [("government", "#1e90ff"),
   ("banks", "#87ceeb"),
   ("popular_turkish", "#00bfff"),
   ("turkish_extensions", "#4682b4"),
   ("universities", "#5f9ea0"),
   ("social_media", "#ff6b6b"),
   ("email_providers", "#4ecdc4"),
   ("tech_companies", "#45b7d1")]

/-- Table `CategoryConfig.ICONS` from `config.py`. -/
def ICONS : List (String × String) :=
  [("government", "building"),
   ("banks", "landmark"),
   ("popular_turkish", "star"),
   ("turkish_extensions", "globe"),
   ("universities", "graduation-cap"),
   ("social_media", "users"),
   ("email_providers", "mail"),
   ("tech_companies", "cpu")]

/-- Table `CategoryConfig.ORDER` from `config.py`: the canonical category ordering. -/
def ORDER : List String :=
  ["government", "banks", "popular_turkish", "turkish_extensions",
   "universities", "social_media", "email_providers", "tech_companies"]

end CategoryConfig

/-- Python `dict.get(k, default)` over a string-to-string table. -/
def lookupD (m : List (String × String)) (k d : String) : String :=
  ((m.find? (fun p => p.1 == k)).map (·.2)).getD d

/-- Python `str.title()` (ASCII letters): uppercase each character that follows
a non-letter, lowercase the rest. -/
def pyTitle (s : String) : String :=
  String.mk (s.toList.foldl
    (fun (acc : List Char × Bool) c =>
      (acc.1 ++ [if acc.2 then c.toLower else c.toUpper], c.isAlpha))
    ([], false)).1

/-- Round-half-even of a rational to an integer (the tie rule of Python
`round`). -/
def roundHalfEvenInt (q : ℚ) : ℤ :=
  let f := ⌊q⌋
  let r := q - (f : ℚ)
  if r < 1/2 then f
  else if 1/2 < r then f + 1
  else if f % 2 = 0 then f else f + 1

/-- Python `round(x, 1)` modelled on exact rationals (the float value
`count/total*100` is modelled by the exact rational it approximates). -/
def round1 (q : ℚ) : ℚ := (roundHalfEvenInt (q * 10) : ℚ) / 10

/-- One entry of the chart-ready output of `format_categories_stats`. -/
structure ChartEntry where
  category : String
  label : String
  count : Nat
  percentage : ℚ
  color : String
  icon : String
  deriving DecidableEq

/-- Lookup in the `category_dict` built by the dict comprehension over the
category rows: Python dict construction keeps the last occurrence of a
duplicated key. -/
def dictLookup (categories : List (String × Nat)) (k : String) : Option Nat :=
  (categories.reverse.find? (fun p => p.1 == k)).map (·.2)

/-- The chart entry built in both loops of `format_categories_stats`. -/
def mkEntry (cat_key : String) (count : Nat) (total_count : Nat) : ChartEntry :=
  { category := cat_key
    label := lookupD CategoryConfig.TRANSLATIONS cat_key (pyTitle cat_key)
    count := count
    percentage := round1 ((count : ℚ) / (total_count : ℚ) * 100)
    color := lookupD CategoryConfig.COLORS cat_key "#6B7280"
    icon := lookupD CategoryConfig.ICONS cat_key "folder" }

/-- Embedding of `DataFormatter.format_categories_stats`: first the categories of
`CategoryConfig.ORDER` that occur in the mapping, in canonical order, then the
remaining input entries in their input order. -/
def format_categories_stats (categories : List (String × Nat)) (total_count : Nat) :
    List ChartEntry :=
  let first := CategoryConfig.ORDER.filterMap (fun cat_key =>
    match dictLookup categories cat_key with
    | some count => some (mkEntry cat_key count total_count)
    | none => none)
  let rest := categories.filterMap (fun cat =>
    if CategoryConfig.ORDER.contains cat.1 then none
    else some (mkEntry cat.1 cat.2 total_count))
  first ++ rest

/-! Local query builder (`DatabaseManager.search_accounts` in `database.py`).
The database-dependent inputs — the column catalog from `DESCRIBE
fetched_accounts` and the row count from the `COUNT(*)` query — are passed in
as parameters; the definitions embed the pure computations the function
performs on them. -/

/-- The search-column selection of `search_accounts`: `domain` when present,
then the first present identifier candidate, then the first present secret
candidate (each loop breaks after its first hit). -/
def buildSearchColumns (available_columns : List String) : List String :=
  let s0 : List String := if available_columns.contains "domain" then ["domain"] else []
  let s1 := s0 ++ (username_columns.find? (fun col =>
    available_columns.contains col && !(s0.contains col))).toList
  let s2 := s1 ++ (password_columns.find? (fun col =>
    available_columns.contains col && !(s1.contains col))).toList
  s2

/-- One WHERE condition appended by `search_accounts`, with its parameters:
the parenthesized disjunction over the search columns, a bare
`col LIKE %s` fragment, or a bare `col = %s` fragment. -/
inductive Cond where
  | searchDisj (parts : List (String × String))
  | plainLike (col : String) (pat : String)
  | plainEq (col : String) (v : String)
  deriving DecidableEq

/-- The `where_conditions` list built by `search_accounts`: the free-text
search condition (falling back to `domain LIKE` when no search column was
discovered), then the domain filter whenever non-empty, then the region and
source filters when non-empty and their column is in the catalog. -/
def buildWhereConditions (available_columns : List String)
    (query domain_filter region_filter source_filter : String) : List Cond :=
  let search_columns := buildSearchColumns available_columns
  (if search_columns.isEmpty then
    [Cond.plainLike "domain" ("%" ++ query ++ "%")]
  else
    [Cond.searchDisj (search_columns.map (fun col => (col, "%" ++ query ++ "%")))])
  ++ (if domain_filter != "" then
        [Cond.plainLike "domain" ("%" ++ domain_filter ++ "%")] else [])
  ++ (if region_filter != "" && available_columns.contains "region" then
        [Cond.plainEq "region" region_filter] else [])
  ++ (if source_filter != "" && available_columns.contains "source" then
        [Cond.plainEq "source" source_filter] else [])

/-- The `total_pages = (total_count + limit - 1) // limit` computation of
`search_accounts` (Python `//` is flooring division, `Int.fdiv`). -/
def computeTotalPages (total_count limit : Int) : Int :=
  Int.fdiv (total_count + limit - 1) limit

/-- The `offset = (page - 1) * limit` computation of `search_accounts`. -/
def computeOffset (page limit : Int) : Int := (page - 1) * limit

/-- The ordering-column selection of `search_accounts`: `fetch_date` when
present, else the first present alternative date candidate, else the first
catalog column (`none` models the `IndexError` on an empty catalog). -/
def pickDateColumn (available_columns : List String) : Option String :=
  if available_columns.contains "fetch_date" then some "fetch_date"
  else
    match ["created_at", "date_added", "timestamp", "date", "created"].find?
        (fun col => available_columns.contains col) with
    | some col => some col
    | none => available_columns.head?

/-- The values `search_accounts` computes from its inputs before running the
paginated fetch. -/
structure SearchAccountsComputed where
  available_columns : List String
  search_columns : List String
  where_conditions : List Cond
  pages : Int
  offset : Int
  date_column : Option String
  deriving DecidableEq

/-- Embedding of `DatabaseManager.search_accounts`: the catalog
discovered by `DESCRIBE` and the `COUNT(*)` result are parameters, and the
result collects every value the function derives from them. -/
def search_accounts (available_columns : List String) (total_count : Int)
    (query domain_filter region_filter source_filter : String)
    (page limit : Int) : SearchAccountsComputed :=
  { available_columns := available_columns
    search_columns := buildSearchColumns available_columns
    where_conditions :=
      buildWhereConditions available_columns query domain_filter region_filter source_filter
    pages := computeTotalPages total_count limit
    offset := computeOffset page limit
    date_column := pickDateColumn available_columns }

/-! Bounded-retry HTTP wrapper (`APIManager.make_request` in `api_utils.py`).
The outcome of each physical attempt is supplied by an oracle indexed by the
retry counter; the function returns the Python-level result together with the
number of attempts it issued. -/

/-- The outcome of one physical HTTP attempt, as classified by the
`except` clauses of `make_request`. -/
inductive AttemptResult (α : Type) where
  | success (v : α)
  | timeout
  | connError
  | httpError (status : Nat)
  | otherError (msg : String)
  deriving DecidableEq

/-- The message of the exception raised when the retry budget is exhausted on
timeouts. -/
def timeoutErrorMsg : String := "API zaman aşımı - sunucu yanıt vermiyor"

/-- The message of the exception raised on a connection error. -/
def connErrorMsg : String := "API sunucusuna bağlanılamıyor"

/-- The classification of HTTP error statuses in `make_request`. -/
def httpErrorMsg (endpoint : String) (status : Nat) : String :=
  if status = 401 then "API yetkilendirme hatası"
  else if status = 404 then "API endpoint bulunamadı: " ++ endpoint
  else if status = 429 then "API rate limit aşıldı"
  else "API sunucu hatası: " ++ toString status

/-- Embedding of `APIManager.make_request`: issue the attempt for the current retry
counter; on timeout or on a generic exception retry (by recursion with
`retries + 1`) while `retries < max_retries`, otherwise raise; a connection
error or an HTTP error status raises immediately. Returns the result and the
total number of attempts issued. -/
def make_request {α : Type} (max_retries : Nat) (endpoint : String)
    (attempt : Nat → AttemptResult α) (retries : Nat) : Except String α × Nat :=
  match attempt retries with
  | .success v => (.ok v, 1)
  | .timeout =>
    if _h : retries < max_retries then
      let rec_result := make_request max_retries endpoint attempt (retries + 1)
      (rec_result.1, rec_result.2 + 1)
    else (.error timeoutErrorMsg, 1)
  | .connError => (.error connErrorMsg, 1)
  | .httpError status => (.error (httpErrorMsg endpoint status), 1)
  | .otherError msg =>
    if _h : retries < max_retries then
      let rec_result := make_request max_retries endpoint attempt (retries + 1)
      (rec_result.1, rec_result.2 + 1)
    else (.error msg, 1)
termination_by max_retries - retries

/-! Search orchestrator with database fallback (`api_search` and
`fallback_database_search` in `routes/api.py`). The remote call outcome and
the outcome of `db.search_accounts` are parameters; the orchestrator returns
the JSON response (flattened into a structure), the HTTP status code, and the
list of I/O paths it invoked. -/

/-- Pagination block of the fallback response. -/
structure Pagination where
  page : Int
  pages : Int
  total : Int
  has_next : Bool
  has_prev : Bool
  deriving DecidableEq

/-- Summary block of the fallback response. -/
structure Summary where
  exact_matches : Nat
  total_matches : Nat
  deriving DecidableEq

/-- Debug block of a search response. -/
structure DebugInfo where
  data_source : String
  query : Option String := none
  warning : Option String := none
  search_columns : Option (List String) := none
  available_columns : Option (List String) := none
  deriving DecidableEq

/-- A search JSON response, flattened: absent keys are `none`. -/
structure SearchResponse where
  success : Bool
  error : Option String := none
  results : Option (List FormattedResult) := none
  pagination : Option Pagination := none
  summary : Option Summary := none
  data_source : Option String := none
  debug : Option DebugInfo := none
  deriving DecidableEq

/-- The events of interest for the orchestrator: issuing the remote API call
and issuing the local database search. -/
inductive SearchEvent where
  | remoteCall
  | localCall
  deriving DecidableEq

/-- ASCII lowercase of a string (Python `str.lower()`). -/
def strLower (s : String) : String := String.map Char.toLower s

/-- Python whitespace as stripped by `str.strip()`. -/
def isPySpace (c : Char) : Bool :=
  c == ' ' || c == '\t' || c == '\n' || c == '\r' || c == '\x0b' || c == '\x0c'

/-- Python `str.strip()`: drop whitespace from both ends. -/
def pyStrip (s : String) : String :=
  String.mk (((s.toList.dropWhile isPySpace).reverse.dropWhile isPySpace).reverse)

/-- Character-list prefix test used by the substring test below. -/
def startsWithChars : List Char → List Char → Bool
  | _, [] => true
  | [], _ :: _ => false
  | a :: as, b :: bs => a == b && startsWithChars as bs

/-- Substring containment on character lists (Python `needle in hay`). -/
def containsSub : List Char → List Char → Bool
  | hay, needle =>
    startsWithChars hay needle ||
      (match hay with
       | [] => false
       | _ :: t => containsSub t needle)

/-- Python `needle in hay` on strings. -/
def strContains (hay needle : String) : Bool := containsSub hay.toList needle.toList

/-- The summary block computed by `fallback_database_search`:
the lowercased-substring test over the formatted domains raises when some
formatted domain is not a string, which `none` models. -/
def computeSummary (query : String) (formatted : List FormattedResult) : Option Summary := do
  let domains ← formatted.mapM (fun r =>
    match r.domain with
    | .vStr s => some s
    | _ => none)
  pure { exact_matches :=
           (domains.filter (fun d => strContains (strLower d) (strLower query))).length
         total_matches := formatted.length }

/-- The warning string placed into the debug block of the fallback response. -/
def fallbackWarning : String := "API başarısız oldu, veritabanından arama yapıldı"

/-- The validation error message of `api_search`. -/
def searchTooShortError : String := "Arama sorgusu en az 2 karakter olmalıdır"

/-- Outcome of `db.search_accounts` as observed by the orchestrator: either
the result dictionary (rows, totals and column lists) or a dictionary
carrying an `error` key. -/
inductive DbSearchOutcome where
  | ok (results : List RawRecord) (total : Int) (pages : Int)
      (available_columns : List String) (search_columns : List String)
  | err (msg : String)
  deriving DecidableEq

/-- Embedding of `fallback_database_search` from `routes/api.py`: an `error` key in the
database result yields a 500 `fallback_failed` response; an exception while
formatting or summarizing yields a 500 `fallback_error` response; otherwise a
200 success response with formatted results, pagination, summary and a debug
block tagged `fallback_database` with a warning. -/
def fallback_database_search (query : String) (page : Int) (_limit : Int)
    (dbOutcome : DbSearchOutcome) : SearchResponse × Nat :=
  match dbOutcome with
  | .err msg =>
    ({ success := false, error := some msg, data_source := some "fallback_failed" }, 500)
  | .ok results total pages available_columns search_columns =>
    match format_search_results results available_columns with
    | none =>
      ({ success := false, error := some "TypeError during result formatting",
         data_source := some "fallback_error" }, 500)
    | some formatted =>
      match computeSummary query formatted with
      | none =>
        ({ success := false, error := some "TypeError during summary computation",
           data_source := some "fallback_error" }, 500)
      | some summary =>
        ({ success := true
           results := some formatted
           pagination := some
             { page := page, pages := pages, total := total,
               has_next := decide (page < pages), has_prev := decide (page > 1) }
           summary := some summary
           debug := some
             { data_source := "fallback_database"
               search_columns := some search_columns
               available_columns := some available_columns
               query := some query
               warning := some fallbackWarning } }, 200)

/-- The debug annotation of the remote-success branch of `api_search`: a debug
block is added only when the upstream response has none. -/
def addRemoteDebug (query : String) (resp : SearchResponse) : SearchResponse :=
  match resp.debug with
  | none => { resp with debug := some { data_source := "external_api", query := some query } }
  | some _ => resp

/-- Embedding of `api_search` from `routes/api.py`: strip the query, clamp the limit to
100, reject queries shorter than 2 characters with a 400 before any I/O, then
try the remote call and on any remote exception run the database fallback.
Returns the response with its status code and the I/O events issued. -/
def api_search (q : String) (page limit : Int)
    (remote : Except String SearchResponse) (dbOutcome : DbSearchOutcome) :
    (SearchResponse × Nat) × List SearchEvent :=
  let query := pyStrip q
  let limit := min limit 100
  if query.length < 2 then
    (({ success := false, error := some searchTooShortError }, 400), [])
  else
    match remote with
    | .ok apiResponse => ((addRemoteDebug query apiResponse, 200), [.remoteCall])
    | .error _ =>
      (fallback_database_search query page limit dbOutcome, [.remoteCall, .localCall])

/-! Theorems for the claims. -/

/-- C2: for every search request whose query text, after trimming, is empty or
shorter than 2 characters, the orchestrator returns the validation error
(success=false, HTTP 400) and issues no I/O event, i.e. neither the remote API
call nor the local database search is invoked. -/
theorem short_query_rejected_before_io (q : String) (page limit : Int)
    (remote : Except String SearchResponse) (dbOutcome : DbSearchOutcome)
    (h : (pyStrip q).length < 2) :
    api_search q page limit remote dbOutcome
      = (({ success := false, error := some searchTooShortError }, 400), []) := by
  unfold api_search
  simp [h]

/-- Witness for C2 at the one-character query "a". -/
theorem short_query_rejected_before_io_witness :
    api_search "a" 1 20 (.error "boom") (.err "down")
      = (({ success := false, error := some searchTooShortError }, 400), []) :=
  short_query_rejected_before_io "a" 1 20 (.error "boom") (.err "down") (by decide)

/-- C10: a raw record with no `id` key at all is formatted with the default
id 0, and since 0 is divisible by 3 the formatted record carries
spid="SP1000" rather than a null spid. -/
theorem missing_id_defaults_to_sp1000 (r : RawRecord)
    (h : RawRecord.get? r "id" = none) :
    (formatOne r).map (·.id) = some 0
  ∧ (formatOne r).map (·.spid) = some (some "SP1000") := by
  have hid : RawRecord.getD r "id" (.vInt 0) = .vInt 0 := by
    unfold RawRecord.getD
    rw [h]
    rfl
  unfold formatOne
  rw [hid]
  exact ⟨rfl, rfl⟩

/-- Witness for C10 at the empty record. -/
theorem missing_id_defaults_to_sp1000_witness :
    (formatOne ([] : RawRecord)).map (·.id) = some 0
  ∧ (formatOne ([] : RawRecord)).map (·.spid) = some (some "SP1000") :=
  missing_id_defaults_to_sp1000 [] rfl

/-- C5: for every formatted record whose raw id value resolves to the integer
n (with default 0), spid is "SP"++(1000+n) exactly when n is divisible by 3
and null otherwise, and the formatted id is n; in particular id=0 gives
"SP1000", id=1 gives null, id=3 gives "SP1003", id=4 gives null. -/
theorem spid_divisibility_rule (r : RawRecord) (n : Int) (fr : FormattedResult)
    (hid : RawRecord.getD r "id" (.vInt 0) = .vInt n)
    (h : formatOne r = some fr) :
    (fr.spid = if n % 3 = 0 then some ("SP" ++ toString (1000 + n)) else none)
  ∧ fr.id = n
  ∧ (formatOne [("id", PyValue.vInt 0)]).map (·.spid) = some (some "SP1000")
  ∧ (formatOne [("id", PyValue.vInt 1)]).map (·.spid) = some none
  ∧ (formatOne [("id", PyValue.vInt 3)]).map (·.spid) = some (some "SP1003")
  ∧ (formatOne [("id", PyValue.vInt 4)]).map (·.spid) = some none := by
  unfold formatOne at h
  rw [hid] at h
  simp only [Option.some.injEq] at h
  subst h
  exact ⟨rfl, rfl, by decide, by decide, by decide, by decide⟩

/-- Witness for C5 at a record with id 3. -/
theorem spid_divisibility_rule_witness :
    (formatOne [("id", PyValue.vInt 3)]).map (·.spid) = some (some "SP1003") :=
  (spid_divisibility_rule [("id", PyValue.vInt 3)] 3
    { id := 3, domain := .vStr "", username := .vStr "N/A", password := .vStr "N/A",
      region := .vStr "Unknown", source := .vStr "TXT",
      category := .vStr "uncategorized", spid := some "SP1003", date := none }
    (by decide) (by decide)).2.2.2.2.1

/-- Characterization of `List.findSome?`: it returns `some v` exactly when
some position yields `v` and every earlier position yields nothing. -/
theorem findSome?_eq_some_characterization {α β : Type} (f : α → Option β)
    (l : List α) (v : β) :
    l.findSome? f = some v ↔
      ∃ (i : Nat) (a : α), l[i]? = some a ∧ f a = some v ∧
        ∀ j : Nat, j < i → ∃ a2, l[j]? = some a2 ∧ f a2 = none := by
  induction l with
  | nil => simp
  | cons x xs ih =>
    rw [List.findSome?_cons]
    cases hx : f x with
    | some w =>
      simp only [Option.some.injEq]
      constructor
      · intro hv
        exact ⟨0, x, by simp, by rw [hx, hv], fun j hj => absurd hj (Nat.not_lt_zero j)⟩
      · rintro ⟨i, a, hi, hfa, hprior⟩
        cases i with
        | zero =>
          simp only [List.getElem?_cons_zero, Option.some.injEq] at hi
          subst hi
          rw [hx] at hfa
          exact (Option.some.injEq _ _).mp hfa
        | succ k =>
          obtain ⟨a2, h02, hf2⟩ := hprior 0 (Nat.succ_pos k)
          simp only [List.getElem?_cons_zero, Option.some.injEq] at h02
          subst h02
          rw [hx] at hf2
          exact absurd hf2 (Option.some_ne_none w)
    | none =>
      rw [ih]
      constructor
      · rintro ⟨i, a, hi, hfa, hprior⟩
        refine ⟨i + 1, a, by simpa using hi, hfa, ?_⟩
        intro j hj
        cases j with
        | zero => exact ⟨x, by simp, hx⟩
        | succ m =>
          obtain ⟨a2, hm, hf2⟩ := hprior m (by omega)
          exact ⟨a2, by simpa using hm, hf2⟩
      · rintro ⟨i, a, hi, hfa, hprior⟩
        cases i with
        | zero =>
          simp only [List.getElem?_cons_zero, Option.some.injEq] at hi
          subst hi
          rw [hx] at hfa
          exact Option.noConfusion hfa
        | succ k =>
          refine ⟨k, a, by simpa using hi, hfa, ?_⟩
          intro j hj
          obtain ⟨a2, hm, hf2⟩ := hprior (j + 1) (by omega)
          exact ⟨a2, by simpa using hm, hf2⟩

/-- C4: for every successfully formatted record, username is the value of the
first identifier-candidate column present with a truthy value (sentinel "N/A"
when none), and independently password is the first secret-candidate value;
"first" is characterized positionally, and a record with only `login` and
`secret` populated yields those values, not "N/A". -/
theorem username_password_candidate_scan (r : RawRecord) (fr : FormattedResult)
    (h : formatOne r = some fr) :
    fr.username = (findCandidate username_columns r).getD (.vStr "N/A")
  ∧ fr.password = (findCandidate password_columns r).getD (.vStr "N/A")
  ∧ (∀ cols v, findCandidate cols r = some v ↔
      ∃ (i : Nat) (c : String), cols[i]? = some c ∧ colTruthy r c = some v ∧
        ∀ j : Nat, j < i → ∃ c2, cols[j]? = some c2 ∧ colTruthy r c2 = none)
  ∧ (∀ cols, findCandidate cols r = none ↔ ∀ c ∈ cols, colTruthy r c = none)
  ∧ formatOne [("login", PyValue.vStr "bob"), ("secret", PyValue.vStr "s3c")]
      = some { id := 0, domain := .vStr "", username := .vStr "bob",
               password := .vStr "s3c", region := .vStr "Unknown",
               source := .vStr "TXT", category := .vStr "uncategorized",
               spid := some "SP1000", date := none } := by
  refine ⟨?_, ?_,
    fun cols v => findSome?_eq_some_characterization (colTruthy r) cols v,
    fun cols => List.findSome?_eq_none_iff, by decide⟩ <;>
  · unfold formatOne at h
    cases hid : RawRecord.getD r "id" (.vInt 0) <;> rw [hid] at h <;>
      simp only [Option.some.injEq, reduceCtorEq] at h
    subst h
    rfl

/-- Witness for C4 at a record populated only with `login` and `secret`. -/
theorem username_password_candidate_scan_witness :
    formatOne [("login", PyValue.vStr "bob"), ("secret", PyValue.vStr "s3c")]
      = some { id := 0, domain := .vStr "", username := .vStr "bob",
               password := .vStr "s3c", region := .vStr "Unknown",
               source := .vStr "TXT", category := .vStr "uncategorized",
               spid := some "SP1000", date := none } :=
  (username_password_candidate_scan
    [("login", PyValue.vStr "bob"), ("secret", PyValue.vStr "s3c")]
    { id := 0, domain := .vStr "", username := .vStr "bob",
      password := .vStr "s3c", region := .vStr "Unknown",
      source := .vStr "TXT", category := .vStr "uncategorized",
      spid := some "SP1000", date := none }
    (by decide)).2.2.2.2

/-- C9: the result formatter is deterministic (it is a pure function of its
input) and order-preserving: whenever formatting succeeds, the output has
exactly one record per input record, and position i of the output is exactly
the formatting of position i of the input. -/
theorem formatter_order_preserving (rs : List RawRecord) (cols : List String)
    (out : List FormattedResult)
    (h : format_search_results rs cols = some out) :
    out.length = rs.length
  ∧ ∀ i : Nat, out[i]? = (rs[i]?).bind formatOne := by
  induction rs generalizing out with
  | nil =>
    unfold format_search_results at h
    simp only [Option.some.injEq] at h
    subst h
    exact ⟨rfl, fun i => by simp⟩
  | cons r rest ih =>
    unfold format_search_results at h
    simp only [bind, Option.bind_eq_some, Option.pure_def, Option.some.injEq] at h
    obtain ⟨fr, hfr, tail, htail, hout⟩ := h
    obtain ⟨hlen, hidx⟩ := ih tail htail
    subst hout
    refine ⟨by simp [hlen], fun i => ?_⟩
    cases i with
    | zero => simp [hfr]
    | succ k => simpa using hidx k

/-- Witness for C9 at a one-record input. -/
theorem formatter_order_preserving_witness :
    ([{ id := 1, domain := .vStr "", username := .vStr "N/A",
        password := .vStr "N/A", region := .vStr "Unknown", source := .vStr "TXT",
        category := .vStr "uncategorized", spid := none, date := none }] :
      List FormattedResult).length
      = ([[("id", PyValue.vInt 1)]] : List RawRecord).length :=
  (formatter_order_preserving [[("id", PyValue.vInt 1)]] []
    [{ id := 1, domain := .vStr "", username := .vStr "N/A",
       password := .vStr "N/A", region := .vStr "Unknown", source := .vStr "TXT",
       category := .vStr "uncategorized", spid := none, date := none }]
    (by decide)).1

/-- C3: if every attempt times out, `make_request` issues exactly
`max_retries + 1` attempts and then fails with the timeout error; a
connection failure fails immediately on the first attempt with no retry. -/
theorem make_request_retry_asymmetry {α : Type} (max_retries : Nat)
    (endpoint : String) (attempt : Nat → AttemptResult α) :
    ((∀ n, attempt n = .timeout) →
      make_request max_retries endpoint attempt 0
        = (.error timeoutErrorMsg, max_retries + 1))
  ∧ (attempt 0 = .connError →
      make_request max_retries endpoint attempt 0 = (.error connErrorMsg, 1)) := by
  constructor
  · intro hatt
    have aux : ∀ (k retries : Nat), max_retries - retries = k →
        make_request max_retries endpoint attempt retries
          = (.error timeoutErrorMsg, k + 1) := by
      intro k
      induction k with
      | zero =>
        intro retries hk
        unfold make_request
        rw [hatt retries]
        have hnr : ¬ retries < max_retries := by omega
        simp [hnr]
      | succ k ih =>
        intro retries hk
        unfold make_request
        rw [hatt retries]
        have hr : retries < max_retries := by omega
        simp [hr, ih (retries + 1) (by omega)]
    simpa using aux max_retries 0 (by omega)
  · intro h0
    unfold make_request
    rw [h0]

/-- Witness for C3: with max_retries = 2 an all-timeout oracle yields 3
attempts, and a first-attempt connection error yields 1 attempt. -/
theorem make_request_retry_asymmetry_witness :
    make_request 2 "/api/search" (fun _ => (AttemptResult.timeout : AttemptResult Nat)) 0
      = (.error timeoutErrorMsg, 3)
  ∧ make_request 2 "/api/search" (fun _ => (AttemptResult.connError : AttemptResult Nat)) 0
      = (.error connErrorMsg, 1) :=
  ⟨(make_request_retry_asymmetry 2 "/api/search" _).1 (fun _ => rfl),
   (make_request_retry_asymmetry 2 "/api/search" _).2 rfl⟩

/-- C1: for every valid query, a remote-call error is absorbed by the
orchestrator: the response is exactly the response of the fallback database search
(with both the remote and the local path invoked). When the fallback
succeeds, the response is a 200 success tagged with the `fallback_database`
provenance and a warning; when the fallback also fails, the caller gets a
structured 500 failure with an error message and no result list. -/
theorem remote_errors_absorbed_into_fallback (q : String) (page limit : Int)
    (emsg : String) (dbOutcome : DbSearchOutcome)
    (h : 2 ≤ (pyStrip q).length) :
    api_search q page limit (.error emsg) dbOutcome
      = (fallback_database_search (pyStrip q) page (min limit 100) dbOutcome,
         [.remoteCall, .localCall])
  ∧ ((fallback_database_search (pyStrip q) page (min limit 100) dbOutcome).1.success = true →
      (fallback_database_search (pyStrip q) page (min limit 100) dbOutcome).2 = 200
      ∧ (fallback_database_search (pyStrip q) page (min limit 100) dbOutcome).1.debug.map
          (·.data_source) = some "fallback_database"
      ∧ (fallback_database_search (pyStrip q) page (min limit 100) dbOutcome).1.debug.bind
          (·.warning) = some fallbackWarning)
  ∧ ((fallback_database_search (pyStrip q) page (min limit 100) dbOutcome).1.success = false →
      (fallback_database_search (pyStrip q) page (min limit 100) dbOutcome).2 = 500
      ∧ ((fallback_database_search (pyStrip q) page (min limit 100) dbOutcome).1.error).isSome
          = true
      ∧ (fallback_database_search (pyStrip q) page (min limit 100) dbOutcome).1.results
          = none) := by
  refine ⟨?_, ?_, ?_⟩
  · unfold api_search
    have hlt : ¬ (pyStrip q).length < 2 := by omega
    simp [hlt]
  all_goals
    cases dbOutcome with
    | err msg => simp [fallback_database_search]
    | ok results total pages avail scols =>
      cases hf : format_search_results results avail with
      | none => simp [fallback_database_search, hf]
      | some formatted =>
        cases hs : computeSummary (pyStrip q) formatted with
        | none => simp [fallback_database_search, hf, hs]
        | some summary => simp [fallback_database_search, hf, hs]

/-- Witness for C1 at a valid query with a failing remote call and a failing
local store. -/
theorem remote_errors_absorbed_into_fallback_witness :
    api_search "ab" 1 20 (.error "boom") (.err "db down")
      = (fallback_database_search (pyStrip "ab") 1 (min 20 100) (.err "db down"),
         [.remoteCall, .localCall]) :=
  (remote_errors_absorbed_into_fallback "ab" 1 20 "boom" (.err "db down") (by decide)).1

/-- C6: with a positive page size, the page count computed by the local search
is the ceiling of total/page_size, the fetch offset is (page-1)*page_size, and
the pagination flags of the fallback response are has_next = (page < pages) and
has_prev = (page > 1). -/
theorem pagination_ceiling_offset_flags (total limit page : Int) (q : String)
    (results : List RawRecord) (avail scols : List String)
    (hl : 1 ≤ limit) :
    computeTotalPages total limit = ⌈(total : ℚ) / (limit : ℚ)⌉
  ∧ computeOffset page limit = (page - 1) * limit
  ∧ ((fallback_database_search q page limit
        (.ok results total (computeTotalPages total limit) avail scols)).1.success = true →
      (fallback_database_search q page limit
        (.ok results total (computeTotalPages total limit) avail scols)).1.pagination
        = some { page := page, pages := computeTotalPages total limit, total := total,
                 has_next := decide (page < computeTotalPages total limit),
                 has_prev := decide (page > 1) }) := by
  have hpos : (0 : ℤ) < limit := by omega
  refine ⟨?_, rfl, ?_⟩
  · unfold computeTotalPages
    rw [Int.fdiv_eq_ediv _ (by omega : (0 : ℤ) ≤ limit)]
    have hqpos : (0 : ℚ) < (limit : ℚ) := by exact_mod_cast hpos
    have hzq := Int.ediv_add_emod (total + limit - 1) limit
    have hmod0 : 0 ≤ (total + limit - 1) % limit :=
      Int.emod_nonneg _ (by omega)
    have hmodlt : (total + limit - 1) % limit < limit :=
      Int.emod_lt_of_pos _ hpos
    have h1 : total ≤ ((total + limit - 1) / limit) * limit := by nlinarith
    have h2 : (((total + limit - 1) / limit) - 1) * limit < total := by nlinarith
    symm
    rw [Int.ceil_eq_iff]
    constructor
    · rw [lt_div_iff₀ hqpos]
      calc ((((total + limit - 1) / limit : ℤ) : ℚ) - 1) * (limit : ℚ)
          = ((((total + limit - 1) / limit - 1) * limit : ℤ) : ℚ) := by push_cast; ring
        _ < ((total : ℤ) : ℚ) := by exact_mod_cast h2
    · rw [div_le_iff₀ hqpos]
      calc ((total : ℤ) : ℚ)
          ≤ ((((total + limit - 1) / limit) * limit : ℤ) : ℚ) := by exact_mod_cast h1
        _ = (((total + limit - 1) / limit : ℤ) : ℚ) * (limit : ℚ) := by push_cast; ring
  · cases hf : format_search_results results avail with
    | none => simp [fallback_database_search, hf]
    | some formatted =>
      cases hs : computeSummary q formatted with
      | none => simp [fallback_database_search, hf, hs]
      | some summary => simp [fallback_database_search, hf, hs]

/-- Witness for C6 at the example total=45, page_size=20, page=3. -/
theorem pagination_ceiling_offset_flags_witness :
    computeTotalPages 45 20 = ⌈((45 : ℤ) : ℚ) / ((20 : ℤ) : ℚ)⌉
  ∧ computeOffset 3 20 = ((3 : ℤ) - 1) * 20 :=
  ⟨(pagination_ceiling_offset_flags 45 20 3 "ab" [] [] [] (by decide)).1,
   (pagination_ceiling_offset_flags 45 20 3 "ab" [] [] [] (by decide)).2.1⟩

/-- C7 counterexample: with a catalog that does not contain a `domain` column,
a non-empty domain filter is still turned into a `domain LIKE` condition — it
is not silently ignored, contradicting the claim that every filter is applied
only when its column is confirmed present. -/
theorem domain_filter_applied_without_catalog_check :
    "domain" ∉ (["username", "password"] : List String)
  ∧ Cond.plainLike "domain" "%x%"
      ∈ buildWhereConditions ["username", "password"] "qq" "x" "" "" := by
  decide

/-- C7 amended: the region and source filters are applied exactly when they
are non-empty and their column is in the discovered catalog (a filter for an
absent column is silently dropped, without error), while the domain filter is
appended whenever it is non-empty, with no catalog check. -/
theorem filter_catalog_guards (avail : List String) (q dF rF sF : String) :
    ((buildWhereConditions avail q dF rF sF).filter
        (fun c => match c with | .plainEq col _ => col == "region" | _ => false))
      = (if rF != "" && avail.contains "region" then [Cond.plainEq "region" rF] else [])
  ∧ ((buildWhereConditions avail q dF rF sF).filter
        (fun c => match c with | .plainEq col _ => col == "source" | _ => false))
      = (if sF != "" && avail.contains "source" then [Cond.plainEq "source" sF] else [])
  ∧ (dF ≠ "" →
      Cond.plainLike "domain" ("%" ++ dF ++ "%")
        ∈ buildWhereConditions avail q dF rF sF) := by
  unfold buildWhereConditions
  refine ⟨?_, ?_, ?_⟩
  · simp only [List.filter_append]
    cases hs : (buildSearchColumns avail).isEmpty <;>
    cases hd : (dF != "") <;>
    cases hr : (rF != "" && avail.contains "region") <;>
    cases hso : (sF != "" && avail.contains "source") <;>
      simp [hs, hd, hr, hso, List.filter]
  · simp only [List.filter_append]
    cases hs : (buildSearchColumns avail).isEmpty <;>
    cases hd : (dF != "") <;>
    cases hr : (rF != "" && avail.contains "region") <;>
    cases hso : (sF != "" && avail.contains "source") <;>
      simp [hs, hd, hr, hso, List.filter]
  · intro h
    have hd : (dF != "") = true := by simpa using h
    simp [hd]

/-- Witness for the amended C7: a present region column with a non-empty
region filter produces exactly the region equality condition. -/
theorem filter_catalog_guards_witness :
    ((buildWhereConditions ["region"] "qq" "" "x" "").filter
        (fun c => match c with | Cond.plainEq col _ => col == "region" | _ => false))
      = (if ("x" != "" && (["region"] : List String).contains "region")
          then [Cond.plainEq "region" "x"] else []) :=
  (filter_catalog_guards ["region"] "qq" "" "x" "").1

/-- Projection of `mkEntry` to its category. -/
theorem mkEntry_category (k : String) (c t : Nat) : (mkEntry k c t).category = k := rfl

/-- Projection of `mkEntry` to its count. -/
theorem mkEntry_count (k : String) (c t : Nat) : (mkEntry k c t).count = c := rfl

/-- Projection of `mkEntry` to its percentage. -/
theorem mkEntry_percentage (k : String) (c t : Nat) :
    (mkEntry k c t).percentage = round1 ((c : ℚ) / (t : ℚ) * 100) := rfl

/-- The categories emitted by the canonical-order loop of
`format_categories_stats` are the canonical keys present in the mapping, in
canonical order. -/
theorem firstLoop_categories (categories : List (String × Nat)) (t : Nat) :
    ∀ l : List String,
      (l.filterMap (fun cat_key =>
        match dictLookup categories cat_key with
        | some count => some (mkEntry cat_key count t)
        | none => none)).map (·.category)
      = l.filter (fun k => (dictLookup categories k).isSome) := by
  intro l
  induction l with
  | nil => rfl
  | cons x xs ih =>
    cases hx : dictLookup categories x with
    | some c =>
      simp [List.filterMap_cons, List.filter_cons, hx, mkEntry_category, ih]
    | none =>
      simp only [List.filterMap_cons, List.filter_cons, hx, Option.isSome_none,
        Bool.false_eq_true, if_false, ih]

/-- The categories emitted by the remainder loop of `format_categories_stats`
are the non-canonical input keys, in input order. -/
theorem restLoop_categories (t : Nat) :
    ∀ categories : List (String × Nat),
      (categories.filterMap (fun cat =>
        if CategoryConfig.ORDER.contains cat.1 then none
        else some (mkEntry cat.1 cat.2 t))).map (·.category)
      = (categories.map (·.1)).filter (fun k => !(CategoryConfig.ORDER.contains k)) := by
  intro categories
  induction categories with
  | nil => rfl
  | cons x xs ih =>
    by_cases hx : CategoryConfig.ORDER.contains x.1
    · simp only [List.filterMap_cons, List.map_cons, List.filter_cons, hx,
        Bool.not_true, Bool.false_eq_true, if_false, if_true, ih]
    · simp only [List.filterMap_cons, List.map_cons, List.filter_cons,
        Bool.not_eq_true] at hx ⊢
      simp only [hx, Bool.not_false, Bool.false_eq_true, if_false, if_true,
        List.map_cons, mkEntry_category, ih]

/-- Every chart entry is built by `mkEntry` from some key and count. -/
theorem mem_format_categories_stats (categories : List (String × Nat)) (t : Nat)
    (e : ChartEntry) (he : e ∈ format_categories_stats categories t) :
    ∃ k c, e = mkEntry k c t := by
  unfold format_categories_stats at he
  rcases List.mem_append.mp he with hm | hm
  · obtain ⟨k, _, hk⟩ := List.mem_filterMap.mp hm
    cases hdk : dictLookup categories k with
    | some c =>
      rw [hdk] at hk
      exact ⟨k, c, ((Option.some.injEq _ _).mp hk).symm⟩
    | none => rw [hdk] at hk; exact absurd hk (Option.noConfusion)
  · obtain ⟨cat, _, hk⟩ := List.mem_filterMap.mp hm
    cases hdk : CategoryConfig.ORDER.contains cat.1 with
    | true => rw [if_pos (by simpa using hdk)] at hk; simp at hk
    | false =>
      rw [if_neg (by simpa using hdk)] at hk
      exact ⟨cat.1, cat.2, ((Option.some.injEq _ _).mp hk).symm⟩

/-- C8: the category-statistics formatter lists first the canonical categories
present in the mapping, in canonical order, then the remaining categories in
input order; every entry percentage is count/total*100 rounded to one
decimal; and the example mapping {government:10, banks:5, custom_x:5} with
total 20 yields government, banks, custom_x with 50.0, 25.0, 25.0. -/
theorem categories_order_and_percentages (categories : List (String × Nat))
    (total_count : Nat) (_ht : 0 < total_count) :
    ((format_categories_stats categories total_count).map (·.category)
      = CategoryConfig.ORDER.filter (fun k => (dictLookup categories k).isSome)
        ++ (categories.map (·.1)).filter (fun k => !(CategoryConfig.ORDER.contains k)))
  ∧ (∀ e ∈ format_categories_stats categories total_count,
      e.percentage = round1 ((e.count : ℚ) / (total_count : ℚ) * 100))
  ∧ (format_categories_stats [("government", 10), ("banks", 5), ("custom_x", 5)] 20).map
        (fun e => (e.category, e.percentage))
      = [("government", 50), ("banks", 25), ("custom_x", 25)] := by
  refine ⟨?_, ?_, ?_⟩
  · unfold format_categories_stats
    rw [List.map_append, firstLoop_categories, restLoop_categories]
  · intro e he
    obtain ⟨k, c, rfl⟩ := mem_format_categories_stats categories total_count e he
    rfl
  · have e50 : round1 (((10 : Nat) : ℚ) / ((20 : Nat) : ℚ) * 100) = 50 := by
      norm_num [round1, roundHalfEvenInt]
    have e25 : round1 (((5 : Nat) : ℚ) / ((20 : Nat) : ℚ) * 100) = 25 := by
      norm_num [round1, roundHalfEvenInt]
    have hform : format_categories_stats
        [("government", 10), ("banks", 5), ("custom_x", 5)] 20
        = [mkEntry "government" 10 20, mkEntry "banks" 5 20, mkEntry "custom_x" 5 20] := rfl
    rw [hform]
    simp only [List.map_cons, List.map_nil, mkEntry_category, mkEntry_percentage]
    rw [e50, e25]

/-- Witness for C8 at the example mapping with total 20. -/
theorem categories_order_and_percentages_witness :
    (format_categories_stats [("government", 10), ("banks", 5), ("custom_x", 5)] 20).map
        (fun e => (e.category, e.percentage))
      = [("government", 50), ("banks", 25), ("custom_x", 25)] :=
  (categories_order_and_percentages
    [("government", 10), ("banks", 5), ("custom_x", 5)] 20 (by decide)).2.2

end ADPManager
